import Mathlib

/-!
Shallow embedding of the bidback trading tool's risk-management core.

Sources embedded here:
- src/source/py/dynamic_regime_system.py
  (RegimeType, MarketState, RuleAdjustment, DynamicRegimeManager,
   AdaptiveStopManager)
- src/backend/risk_management/integrated_overlay_system.py
  (IntegratedRiskOverlay: regime configurations, classify_regime,
   calculate_dynamic_stop, calculate_dynamic_profits)
- src/backend/risk_management/profit_taking_system.py
  (RegimeProfitTakingManager.calculate_profit_levels)
- src/source/py/ultimate_implementation.py
  (TradePosition, UltimateRiskManager.open_position / update_position /
   close_position / the manager state)

Conventions: Python floats are embedded as rationals so that the
rule arithmetic is exact; Python dicts keyed by strings become
association lists; Python optional values become Option; Python
methods that raise ValueError become functions into Except.
Human-readable reason strings are kept as short fixed tags: the code
only ever tests them for emptiness, never for their content, so the
exact formatted text (which interpolates floats) is not reproduced.
The momentum_ratio field is shortened to momentum.
-/

namespace Bidback

/-- RegimeType enum from dynamic_regime_system.py. -/
inductive RegimeType where
  | CRISIS_OPPORTUNITY
  | HIGH_VOL_STRESS
  | BULL_NORMAL
  | LOW_VOL_COMPLACENCY
deriving DecidableEq, Repr

/-- The .value string of each enum member. -/
def RegimeType.val : RegimeType → String
  | .CRISIS_OPPORTUNITY => "crisis_opportunity"
  | .HIGH_VOL_STRESS => "high_vol_stress"
  | .BULL_NORMAL => "bull_normal"
  | .LOW_VOL_COMPLACENCY => "low_vol_complacency"

/-- MarketState dataclass from dynamic_regime_system.py
(momentum_ratio is called momentum here). -/
structure MarketState where
  vix_level : ℚ
  t2108_level : Option ℚ := none
  momentum : Option ℚ := none
  day : ℕ := 0
  regime : RegimeType := .BULL_NORMAL
deriving DecidableEq, Repr

/-- RuleAdjustment dataclass from dynamic_regime_system.py. -/
structure RuleAdjustment where
  stop_multiplier : ℚ := 1
  profit_multiplier : ℚ := 1
  urgency_factor : ℚ := 1
  reason : String := ""
deriving DecidableEq, Repr

namespace DynamicRegimeManager

/-- DynamicRegimeManager.classify_regime_comprehensive: primary VIX
banding plus the breadth/momentum secondary adjustment (applied only
when both secondary inputs are present). -/
def classify_regime_comprehensive (state : MarketState) : RegimeType :=
  let vix := state.vix_level
  let primary : RegimeType :=
    if vix ≥ 50 then .CRISIS_OPPORTUNITY
    else if vix ≥ 30 then .HIGH_VOL_STRESS
    else if vix ≥ 15 then .BULL_NORMAL
    else .LOW_VOL_COMPLACENCY
  match state.t2108_level, state.momentum with
  | some t2108, some momentum =>
    if t2108 < 20 ∧ momentum < 0.8 then
      if primary = .BULL_NORMAL then .HIGH_VOL_STRESS
      else if primary = .LOW_VOL_COMPLACENCY then .BULL_NORMAL
      else primary
    else if t2108 > 60 ∧ momentum > 2.0 then
      if primary = .HIGH_VOL_STRESS then .BULL_NORMAL
      else if primary = .BULL_NORMAL ∧ vix < 20 then .LOW_VOL_COMPLACENCY
      else primary
    else primary
  | _, _ => primary

/-- DynamicRegimeManager.calculate_transition_adjustments: the base
rule adjustment driven by the raw VIX / T2108 / momentum deltas
between two consecutive snapshots.  The new/old regime parameters are
accepted and ignored exactly as in the source. -/
def calculate_transition_adjustments (current previous : MarketState)
    (_new_regime _old_regime : RegimeType) : RuleAdjustment :=
  let adjustment : RuleAdjustment := {}
  let vix_change := current.vix_level - previous.vix_level
  let adjustment :=
    if |vix_change| > 15 then
      if vix_change > 0 then
        { adjustment with
            stop_multiplier := 1.2 + vix_change / 50,
            profit_multiplier := 1.1 + vix_change / 100,
            reason := adjustment.reason ++ "VIX spike; " }
      else
        { adjustment with
            stop_multiplier := 0.9 + vix_change / 100,
            profit_multiplier := 0.95 + vix_change / 200,
            reason := adjustment.reason ++ "VIX decline; " }
    else adjustment
  let adjustment :=
    match current.t2108_level, previous.t2108_level with
    | some ct, some pt =>
      let t2108_change := ct - pt
      if t2108_change < -25 then
        { adjustment with
            stop_multiplier := adjustment.stop_multiplier * 0.7,
            profit_multiplier := adjustment.profit_multiplier * 0.8,
            urgency_factor := 2.0,
            reason := adjustment.reason ++ "Breadth collapse; " }
      else if t2108_change > 20 then
        { adjustment with
            profit_multiplier := adjustment.profit_multiplier * 1.3,
            reason := adjustment.reason ++ "Breadth surge; " }
      else adjustment
    | _, _ => adjustment
  match current.momentum, previous.momentum with
  | some cm, some pm =>
    let momentum_change := cm / pm
    if momentum_change < 0.5 then
      { adjustment with
          stop_multiplier := adjustment.stop_multiplier * 0.8,
          urgency_factor := max adjustment.urgency_factor 1.5,
          reason := adjustment.reason ++ "Momentum collapse; " }
    else if momentum_change > 2.0 then
      { adjustment with
          profit_multiplier := adjustment.profit_multiplier * 1.2,
          reason := adjustment.reason ++ "Momentum surge; " }
    else adjustment
  | _, _ => adjustment

/-- DynamicRegimeManager.check_emergency_protocols: the three
emergency checks, in source order (breadth collapse, volatility
explosion, momentum collapse). -/
def check_emergency_protocols (current previous : MarketState) :
    Option RuleAdjustment :=
  let breadth : Option RuleAdjustment :=
    match current.t2108_level, previous.t2108_level with
    | some ct, some pt =>
      if ct - pt < -30 then
        some { stop_multiplier := 0.6, profit_multiplier := 0.7,
               urgency_factor := 2.0,
               reason := "EMERGENCY: Breadth collapse protocol activated" }
      else none
    | _, _ => none
  match breadth with
  | some a => some a
  | none =>
    if current.vix_level > 60 ∧ current.vix_level - previous.vix_level > 20 then
      some { stop_multiplier := 1.5, profit_multiplier := 1.4,
             urgency_factor := 0.7,
             reason := "EMERGENCY: Volatility explosion protocol activated" }
    else
      match current.momentum, previous.momentum with
      | some cm, some pm =>
        if cm < 0.1 ∧ pm > 1.0 then
          some { stop_multiplier := 0.5, profit_multiplier := 0.6,
                 urgency_factor := 3.0,
                 reason := "EMERGENCY: Momentum collapse protocol activated" }
        else none
      | _, _ => none

/-- DynamicRegimeManager.combine_adjustments: multiplies the base and
emergency multipliers, takes the max urgency. -/
def combine_adjustments (base emergency : RuleAdjustment) : RuleAdjustment :=
  { stop_multiplier := base.stop_multiplier * emergency.stop_multiplier,
    profit_multiplier := base.profit_multiplier * emergency.profit_multiplier,
    urgency_factor := max base.urgency_factor emergency.urgency_factor,
    reason := base.reason ++ " + " ++ emergency.reason }

/-- DynamicRegimeManager.detect_regime_transition.  The transition
log that the source appends to adjustment_history is an observability
side effect and is not part of the returned value. -/
def detect_regime_transition (current : MarketState)
    (previous : Option MarketState) :
    Bool × RegimeType × RuleAdjustment :=
  let new_regime := classify_regime_comprehensive current
  match previous with
  | none => (true, new_regime, {})
  | some previous_state =>
    let previous_regime := previous_state.regime
    let transition_detected := new_regime ≠ previous_regime
    let rule_adjustment :=
      calculate_transition_adjustments current previous_state
        new_regime previous_regime
    let rule_adjustment :=
      match check_emergency_protocols current previous_state with
      | some emergency => combine_adjustments rule_adjustment emergency
      | none => rule_adjustment
    (transition_detected, new_regime, rule_adjustment)

end DynamicRegimeManager

/-- One per-regime rule bundle of
IntegratedRiskOverlay.regime_configurations (the vix_range and
description entries are carried by the classifier and by
documentation respectively and are not fields of the bundle used in
rule computation). -/
structure RegimeConfig where
  stop_loss_pct : ℚ
  profit_levels : List ℚ
  position_scaling : List ℚ
  tr_stop_multiplier : ℚ
  tr_profit_multipliers : List ℚ
  max_hold_override : ℕ
deriving DecidableEq, Repr

namespace DynamicRegimeManager

/-- DynamicRegimeManager.apply_dynamic_adjustments: multiplies the
stop / profit fields of a rule bundle by the adjustment multipliers
and divides the hold time by the urgency factor (floored, minimum 1)
when the urgency factor exceeds 1. -/
def apply_dynamic_adjustments (base_rules : RegimeConfig)
    (adjustment : RuleAdjustment) : RegimeConfig :=
  { base_rules with
    stop_loss_pct := base_rules.stop_loss_pct * adjustment.stop_multiplier,
    profit_levels :=
      base_rules.profit_levels.map (· * adjustment.profit_multiplier),
    tr_stop_multiplier :=
      base_rules.tr_stop_multiplier * adjustment.stop_multiplier,
    tr_profit_multipliers :=
      base_rules.tr_profit_multipliers.map (· * adjustment.profit_multiplier),
    max_hold_override :=
      if adjustment.urgency_factor > 1 then
        max 1 (((base_rules.max_hold_override : ℚ) /
          adjustment.urgency_factor).floor.toNat)
      else base_rules.max_hold_override }

end DynamicRegimeManager

namespace IntegratedRiskOverlay

/-- The crisis_opportunity configuration. -/
def crisisConfig : RegimeConfig :=
  { stop_loss_pct := -15, profit_levels := [20, 35, 50],
    position_scaling := [25, 50, 100], tr_stop_multiplier := 2.5,
    tr_profit_multipliers := [3.0, 5.0, 7.0], max_hold_override := 4 }

/-- The high_vol_stress configuration. -/
def highVolConfig : RegimeConfig :=
  { stop_loss_pct := -12, profit_levels := [15, 28, 45],
    position_scaling := [25, 50, 100], tr_stop_multiplier := 2,
    tr_profit_multipliers := [2.5, 4.0, 6.0], max_hold_override := 3 }

/-- The bull_normal configuration. -/
def bullConfig : RegimeConfig :=
  { stop_loss_pct := -8, profit_levels := [12, 25, 40],
    position_scaling := [25, 50, 100], tr_stop_multiplier := 1.8,
    tr_profit_multipliers := [2.0, 3.5, 5.5], max_hold_override := 3 }

/-- The low_vol_complacency configuration. -/
def lowVolConfig : RegimeConfig :=
  { stop_loss_pct := -5, profit_levels := [8, 15, 25],
    position_scaling := [30, 60, 100], tr_stop_multiplier := 1.2,
    tr_profit_multipliers := [1.8, 3.0, 4.5], max_hold_override := 2 }

/-- Lookup into IntegratedRiskOverlay.regime_configurations by regime
key.  classify_regime only ever produces the four keys below; the
final branch is unreachable from it. -/
def regime_configurations (regime : String) : RegimeConfig :=
  if regime = "crisis_opportunity" then crisisConfig
  else if regime = "high_vol_stress" then highVolConfig
  else if regime = "bull_normal" then bullConfig
  else lowVolConfig

/-- IntegratedRiskOverlay.classify_regime: iterates the configuration
dict in insertion order and returns the first regime whose half-open
vix_range contains the VIX; falls back to bull_normal. -/
def classify_regime (vix_level : ℚ) : String :=
  if 50 ≤ vix_level then "crisis_opportunity"
  else if 30 ≤ vix_level ∧ vix_level < 50 then "high_vol_stress"
  else if 15 ≤ vix_level ∧ vix_level < 30 then "bull_normal"
  else if 0 ≤ vix_level ∧ vix_level < 15 then "low_vol_complacency"
  else "bull_normal"

/-- The dict returned by IntegratedRiskOverlay.calculate_dynamic_stop. -/
structure StopResult where
  price : ℚ
  pct : ℚ
  method : String
deriving DecidableEq, Repr

/-- IntegratedRiskOverlay.calculate_dynamic_stop: min of percentage
stop and true-range stop, then the market-breadth multiplier.  Note
that this function applies no [-25, -2] clamp. -/
def calculate_dynamic_stop (entry_price : ℚ) (config : RegimeConfig)
    (true_range : ℚ) (t2108_level : Option ℚ) : StopResult :=
  let base_stop_pct := config.stop_loss_pct
  let tr_stop_pct := -(true_range * config.tr_stop_multiplier / entry_price) * 100
  let final_stop_pct := min base_stop_pct tr_stop_pct
  let final_stop_pct :=
    match t2108_level with
    | some t2108 =>
      if t2108 < 20 then final_stop_pct * 0.8
      else if t2108 > 60 then final_stop_pct * 1.2
      else final_stop_pct
    | none => final_stop_pct
  { price := entry_price * (1 + final_stop_pct / 100),
    pct := final_stop_pct,
    method := if tr_stop_pct < base_stop_pct then "tr_based" else "pct_based" }

/-- One element of the list returned by
IntegratedRiskOverlay.calculate_dynamic_profits. -/
structure ProfitTarget where
  level : ℕ
  price : ℚ
  pct : ℚ
  position_to_close : ℚ
  method : String
deriving DecidableEq, Repr

/-- Recursion of calculate_dynamic_profits over the enumerated zip of
profit_levels with tr_profit_multipliers; scaling is the full
position_scaling list indexed per iteration, as in the source. -/
def dynamicProfitsGo (entry_price : ℚ) (scaling : List ℚ) (tr : ℚ) :
    ℕ → List ℚ → List ℚ → List ProfitTarget
  | i, base_pct :: bs, tr_multiplier :: ms =>
    let base_target := entry_price * (1 + base_pct / 100)
    let tr_target := entry_price + tr * tr_multiplier
    let final_price := max base_target tr_target
    let position_to_close :=
      scaling.getD i 0 - (if i > 0 then scaling.getD (i - 1) 0 else 0)
    { level := i + 1, price := final_price,
      pct := (final_price - entry_price) / entry_price * 100,
      position_to_close := position_to_close,
      method := if tr_target > base_target then "tr_based" else "pct_based" }
      :: dynamicProfitsGo entry_price scaling tr (i + 1) bs ms
  | _, _, _ => []

/-- IntegratedRiskOverlay.calculate_dynamic_profits. -/
def calculate_dynamic_profits (entry_price : ℚ) (config : RegimeConfig)
    (true_range : ℚ) : List ProfitTarget :=
  dynamicProfitsGo entry_price config.position_scaling true_range 0
    config.profit_levels config.tr_profit_multipliers

end IntegratedRiskOverlay

namespace AdaptiveStopManager

/-- The dict returned by AdaptiveStopManager.calculate_adaptive_stop
(the adjustment_applied string is reproduced as the adjustment's
reason tag). -/
structure StopData where
  stop_level : ℚ
  stop_pct : ℚ
  regime : RegimeType
  base_stop : ℚ
  tr_stop : ℚ
  volatility_factor : ℚ
  transition_detected : Bool
deriving DecidableEq, Repr

/-- AdaptiveStopManager.calculate_adaptive_stop.  Takes and returns
the rolling true-range window of the symbol (the manager's
per-symbol mutable list).  Regime detection and dynamic adjustment
are re-applied to the supplied rules exactly as in the source, the
true-range stop is normalized by the rolling volatility factor, the
more conservative of the percentage and true-range stops is chosen,
and the result is clamped to [-25, -2] last. -/
def calculate_adaptive_stop (rolling_prev : List ℚ)
    (entry_price current_true_range : ℚ) (base_rules : RegimeConfig)
    (market_state : MarketState) (previous_state : Option MarketState) :
    StopData × List ℚ :=
  let det :=
    DynamicRegimeManager.detect_regime_transition market_state previous_state
  let transition_detected := det.1
  let new_regime := det.2.1
  let adjustment := det.2.2
  let adjusted_rules :=
    DynamicRegimeManager.apply_dynamic_adjustments base_rules adjustment
  let rolling := rolling_prev ++ [current_true_range]
  let rolling := if rolling.length > 5 then rolling.drop (rolling.length - 5)
                 else rolling
  let rolling_tr := rolling.sum / rolling.length
  let volatility_factor :=
    if rolling_tr > 0 then current_true_range / rolling_tr else 1
  let base_stop_pct := adjusted_rules.stop_loss_pct
  let tr_multiplier := adjusted_rules.tr_stop_multiplier
  let adjusted_tr_multiplier := tr_multiplier * volatility_factor
  let tr_stop_distance := current_true_range * adjusted_tr_multiplier
  let tr_stop_pct := -(tr_stop_distance / entry_price) * 100
  let final_stop_pct := min base_stop_pct tr_stop_pct
  let final_stop_pct := max final_stop_pct (-25)
  let final_stop_pct := min final_stop_pct (-2)
  let stop_level := entry_price * (1 + final_stop_pct / 100)
  ({ stop_level := stop_level, stop_pct := final_stop_pct,
     regime := new_regime, base_stop := base_stop_pct,
     tr_stop := tr_stop_pct, volatility_factor := volatility_factor,
     transition_detected := transition_detected }, rolling)

end AdaptiveStopManager

namespace RegimeProfitTakingManager

/-- One per-regime rule bundle of
RegimeProfitTakingManager.regime_rules. -/
structure PTRules where
  profit_levels : List ℚ
  position_scaling : List ℚ
  true_range_multipliers : List ℚ
deriving DecidableEq, Repr

/-- RegimeProfitTakingManager.regime_rules lookup by regime key. -/
def regime_rules (regime : String) : PTRules :=
  if regime = "crisis_opportunity" then
    { profit_levels := [20, 35, 50], position_scaling := [25, 50, 100],
      true_range_multipliers := [3.0, 5.0, 7.0] }
  else if regime = "high_vol_stress" then
    { profit_levels := [15, 28, 45], position_scaling := [25, 50, 100],
      true_range_multipliers := [2.5, 4.0, 6.0] }
  else if regime = "bull_normal" then
    { profit_levels := [12, 25, 40], position_scaling := [25, 50, 100],
      true_range_multipliers := [2.0, 3.5, 5.5] }
  else
    { profit_levels := [8, 15, 25], position_scaling := [30, 60, 100],
      true_range_multipliers := [1.8, 3.0, 4.5] }

/-- RegimeProfitTakingManager.classify_regime. -/
def classify_regime (vix_level : ℚ) : String :=
  if vix_level ≥ 50 then "crisis_opportunity"
  else if vix_level ≥ 30 then "high_vol_stress"
  else if vix_level ≥ 15 then "bull_normal"
  else "low_vol_complacency"

/-- One element of the profit_targets list built by
RegimeProfitTakingManager.calculate_profit_levels. -/
structure PTLevel where
  level : ℕ
  price_target : ℚ
  profit_pct : ℚ
  position_to_close : ℚ
  cumulative_closed : ℚ
  remaining_position : ℚ
  method : String
deriving DecidableEq, Repr

/-- The loop of calculate_profit_levels over the zip of
profit_levels, position_scaling and true_range_multipliers.  The
position_to_close of level i subtracts the position_to_close of the
PREVIOUSLY BUILT entry (profit_targets of index i minus 1), not the
previous cumulative scaling — this is the source's line
position_to_close of profit_taking_system.py verbatim. -/
def profitLevelsGo (entry_price true_range : ℚ) :
    ℕ → ℚ → List ℚ → List ℚ → List ℚ → List PTLevel
  | i, prev_ptc, base_pct :: bs, position_pct :: ps, tr_multiplier :: ts =>
    let base_target := entry_price * (1 + base_pct / 100)
    let tr_target := entry_price + true_range * tr_multiplier
    let final_target := max base_target tr_target
    let ptc := position_pct - (if i > 0 then prev_ptc else 0)
    { level := i + 1, price_target := final_target,
      profit_pct := (final_target - entry_price) / entry_price * 100,
      position_to_close := ptc, cumulative_closed := position_pct,
      remaining_position := 100 - position_pct,
      method := if tr_target > base_target then "tr_based" else "pct_based" }
      :: profitLevelsGo entry_price true_range (i + 1) ptc bs ps ts
  | _, _, _, _, _ => []

/-- The dict returned by calculate_profit_levels. -/
structure PTResult where
  regime : String
  profit_targets : List PTLevel
deriving DecidableEq, Repr

/-- RegimeProfitTakingManager.calculate_profit_levels. -/
def calculate_profit_levels (entry_price vix_level true_range : ℚ)
    (regime : Option String) : PTResult :=
  let regime := regime.getD (classify_regime vix_level)
  let rules := regime_rules regime
  { regime := regime,
    profit_targets :=
      profitLevelsGo entry_price true_range 0 0 rules.profit_levels
        rules.position_scaling rules.true_range_multipliers }

end RegimeProfitTakingManager

/-- TradePosition dataclass from ultimate_implementation.py (the
entry_date timestamp plays no part in any rule and is omitted). -/
structure TradePosition where
  symbol : String
  entry_price : ℚ
  position_size : ℚ := 100
  regime_at_entry : String := ""
  vix_at_entry : ℚ := 0
  stop_level : ℚ := 0
  profit_levels : List ℚ := []
  profit_scales : List ℚ := []
  stop_triggered : Bool := false
  profit_levels_hit : List ℕ := []
  remaining_position : ℚ := 100
  realized_pnl : ℚ := 0
  max_profit_seen : ℚ := 0
  max_loss_seen : ℚ := 0
  days_held : ℕ := 0
deriving DecidableEq, Repr

namespace UltimateRiskManager

/-- First-match lookup in the active-positions dict. -/
def lookupPos : List (String × TradePosition) → String → Option TradePosition
  | [], _ => none
  | (k, v) :: rest, s => if k = s then some v else lookupPos rest s

/-- Dict assignment: replace the value of an existing key, append a
new key at the end. -/
def writePos : List (String × TradePosition) → String → TradePosition →
    List (String × TradePosition)
  | [], s, v => [(s, v)]
  | (k, w) :: rest, s, v =>
    if k = s then (s, v) :: rest else (k, w) :: writePos rest s v

/-- Dict deletion. -/
def removePos : List (String × TradePosition) → String →
    List (String × TradePosition)
  | [], _ => []
  | (k, w) :: rest, s =>
    if k = s then removePos rest s else (k, w) :: removePos rest s

/-- Per-symbol rolling true-range lookup of AdaptiveStopManager. -/
def lookupTR : List (String × List ℚ) → String → List ℚ
  | [], _ => []
  | (k, v) :: rest, s => if k = s then v else lookupTR rest s

/-- Per-symbol rolling true-range assignment. -/
def writeTR : List (String × List ℚ) → String → List ℚ →
    List (String × List ℚ)
  | [], s, v => [(s, v)]
  | (k, w) :: rest, s, v =>
    if k = s then (s, v) :: rest else (k, w) :: writeTR rest s v

/-- The market_data dict supplied by callers: every key is optional
and is defaulted with dict.get when absent. -/
structure MarketData where
  vix : Option ℚ := none
  t2108 : Option ℚ := none
  momentum : Option ℚ := none
  true_range : Option ℚ := none
deriving DecidableEq, Repr

/-- The current_price_data dict supplied to update_position. -/
structure PriceData where
  high : Option ℚ := none
  low : Option ℚ := none
  close : Option ℚ := none
deriving DecidableEq, Repr

/-- The mutable state of an UltimateRiskManager instance.  The trade
history and regime history are modeled by their lengths: the code
only ever appends log entries to them and no rule reads them back. -/
structure ManagerState where
  active_positions : List (String × TradePosition) := []
  performance_history : List ℚ := []
  trade_history_len : ℕ := 0
  regime_history_len : ℕ := 0
  current_market_state : Option MarketState := none
  previous_market_state : Option MarketState := none
  rolling_true_ranges : List (String × List ℚ) := []
deriving DecidableEq, Repr

/-- The errors the manager raises: DuplicatePosition and
PositionNotFound are ValueErrors of the source carrying the
corresponding message; ZeroDivisionError is the untyped exception
Python raises when open_position is called with entry_price 0 and
the adaptive stop computation divides the true-range stop distance
by the entry price. -/
inductive ManagerErr where
  | DuplicatePosition
  | PositionNotFound
  | ZeroDivisionError
deriving DecidableEq, Repr

/-- The dict returned by open_position. -/
structure OpenResult where
  regime : String
  stop_level : ℚ
  stop_distance_pct : ℚ
  profit_targets : List ℚ
  expected_hold_days : ℕ
  regime_transition_detected : Bool
  market_adjustments : String
deriving DecidableEq, Repr

/-- UltimateRiskManager.open_position: duplicate-symbol guard,
market-data extraction with defaults (vix 20, true_range 2 percent
of entry), market-state rollover, regime classification, dynamic
adjustment, adaptive stop, profit ladder, position creation.  There
is no validation of entry_price: a negative entry price flows
through unchecked, and entry_price 0 makes the source raise an
untyped ZeroDivisionError inside calculate_adaptive_stop (the
true-range stop distance is divided by the entry price), which this
embedding surfaces as the ZeroDivisionError outcome — the Lean
calculate_adaptive_stop itself is total, so the abort is recorded
here, at the call that the exception escapes from. -/
def open_position (mgr : ManagerState) (symbol : String)
    (entry_price : ℚ) (market_data : MarketData)
    (position_size : Option ℚ) :
    Except ManagerErr (ManagerState × OpenResult) :=
  if (lookupPos mgr.active_positions symbol).isSome then
    .error .DuplicatePosition
  else if entry_price = 0 then
    .error .ZeroDivisionError
  else
    let position_size := position_size.getD 100
    let vix_level := market_data.vix.getD 20
    let t2108_level := market_data.t2108
    let momentum := market_data.momentum
    let true_range := market_data.true_range.getD (entry_price * 0.02)
    let previous_market_state := mgr.current_market_state
    let current_market_state : MarketState :=
      { vix_level := vix_level, t2108_level := t2108_level,
        momentum := momentum, day := mgr.regime_history_len + 1 }
    let regime := IntegratedRiskOverlay.classify_regime vix_level
    let base_rules := IntegratedRiskOverlay.regime_configurations regime
    let det :=
      DynamicRegimeManager.detect_regime_transition current_market_state
        previous_market_state
    let transition_detected := det.1
    let adjustments := det.2.2
    let adjusted_rules :=
      DynamicRegimeManager.apply_dynamic_adjustments base_rules adjustments
    let rolling := lookupTR mgr.rolling_true_ranges symbol
    let stopRes :=
      AdaptiveStopManager.calculate_adaptive_stop rolling entry_price
        true_range adjusted_rules current_market_state previous_market_state
    let stop_data := stopRes.1
    let rolling' := stopRes.2
    let profit_levels :=
      IntegratedRiskOverlay.calculate_dynamic_profits entry_price
        adjusted_rules true_range
    let position : TradePosition :=
      { symbol := symbol, entry_price := entry_price,
        position_size := position_size, regime_at_entry := regime,
        vix_at_entry := vix_level, stop_level := stop_data.stop_level,
        profit_levels := profit_levels.map (·.price),
        profit_scales := adjusted_rules.position_scaling }
    let mgr' : ManagerState :=
      { mgr with
        previous_market_state := previous_market_state,
        current_market_state := some current_market_state,
        rolling_true_ranges :=
          writeTR mgr.rolling_true_ranges symbol rolling',
        active_positions := writePos mgr.active_positions symbol position,
        trade_history_len := mgr.trade_history_len + 1 }
    .ok (mgr', {
      regime := regime, stop_level := position.stop_level,
      stop_distance_pct :=
        (position.stop_level - entry_price) / entry_price * 100,
      profit_targets := position.profit_levels,
      expected_hold_days := adjusted_rules.max_hold_override,
      regime_transition_detected := transition_detected,
      market_adjustments := adjustments.reason })

/-- The actions reported by update_position. -/
inductive Action where
  | stopLossExecuted (price pnl : ℚ)
  | profitTakingLevel (level : ℕ) (price position_to_close : ℚ)
  | regimeAdjustment (old_stop new_stop : ℚ)
  | timeBasedExit (price pnl : ℚ)
deriving DecidableEq, Repr

/-- The dict returned by update_position: the CLOSED shape carries
final_pnl, the ACTIVE shape carries the mark-to-market data. -/
inductive UpdateResult where
  | closed (actions : List Action) (final_pnl : ℚ) (days_held : ℕ)
  | active (actions : List Action) (current_pnl realized_pnl : ℚ)
      (remaining_position : ℚ) (days_held : ℕ)
deriving DecidableEq, Repr

/-- UltimateRiskManager.close_position: realizes any remaining
exposure at the exit price, appends the total to the performance
history, logs, and removes the symbol from the active set. -/
def close_position (mgr : ManagerState) (symbol : String)
    (exit_price : ℚ) : ManagerState :=
  match lookupPos mgr.active_positions symbol with
  | none => mgr
  | some position =>
    let total_return_pct := position.realized_pnl +
      (if position.remaining_position > 0 then
        (exit_price - position.entry_price) / position.entry_price *
          (position.remaining_position / 100)
       else 0)
    { mgr with
      trade_history_len := mgr.trade_history_len + 1,
      performance_history := mgr.performance_history ++ [total_return_pct],
      active_positions := removePos mgr.active_positions symbol }

/-- The PRIORITY 2 loop of update_position over the enumerated zip of
the position's profit_levels with profit_scales: every not-yet-hit
level reached by the daily high executes, the loop returning early
(with the executing level's price) only when the remaining position
reaches zero. -/
def profitLoop (entry_price high_price : ℚ) :
    ℕ → List ℚ → List ℚ → TradePosition → List Action →
    TradePosition × List Action × Option ℚ
  | i, profit_target :: ts, scale_pct :: ss, position, actions =>
    if high_price ≥ profit_target ∧ i ∉ position.profit_levels_hit ∧
        position.remaining_position > 0 then
      let position_to_close := scale_pct -
        (if i > 0 then position.profit_scales.getD (i - 1) 0 else 0)
      let profit_pnl := (profit_target - entry_price) / entry_price *
        (position_to_close / 100)
      let position :=
        { position with
          realized_pnl := position.realized_pnl + profit_pnl,
          profit_levels_hit := position.profit_levels_hit ++ [i],
          remaining_position :=
            position.remaining_position - position_to_close }
      let actions := actions ++
        [Action.profitTakingLevel (i + 1) profit_target position_to_close]
      if position.remaining_position ≤ 0 then
        (position, actions, some profit_target)
      else profitLoop entry_price high_price (i + 1) ts ss position actions
    else profitLoop entry_price high_price (i + 1) ts ss position actions
  | _, _, _, position, actions => (position, actions, none)

/-- UltimateRiskManager.update_position: PositionNotFound guard, then
the four priorities in source order — stop-loss, profit-taking,
regime re-adjustment, time exit (max_hold_days hardcoded to 5). -/
def update_position (mgr : ManagerState) (symbol : String)
    (current_price_data : PriceData) (market_data : MarketData) :
    Except ManagerErr (ManagerState × UpdateResult) :=
  match lookupPos mgr.active_positions symbol with
  | none => .error .PositionNotFound
  | some position =>
    let position := { position with days_held := position.days_held + 1 }
    let high_price :=
      current_price_data.high.getD (current_price_data.close.getD 0)
    let low_price :=
      current_price_data.low.getD (current_price_data.close.getD 0)
    let close_price := current_price_data.close.getD high_price
    let current_pnl_pct :=
      (close_price - position.entry_price) / position.entry_price
    let position :=
      { position with
        max_profit_seen := max position.max_profit_seen
          ((high_price - position.entry_price) / position.entry_price),
        max_loss_seen := min position.max_loss_seen
          ((low_price - position.entry_price) / position.entry_price) }
    if low_price ≤ position.stop_level ∧ ¬position.stop_triggered ∧
        position.remaining_position > 0 then
      let stop_pnl :=
        (position.stop_level - position.entry_price) / position.entry_price *
          (position.remaining_position / 100)
      let position :=
        { position with
          realized_pnl := position.realized_pnl + stop_pnl,
          stop_triggered := true, remaining_position := 0 }
      let actions := [Action.stopLossExecuted position.stop_level stop_pnl]
      let mgr :=
        { mgr with active_positions :=
            writePos mgr.active_positions symbol position }
      let mgr := close_position mgr symbol position.stop_level
      .ok (mgr, .closed actions position.realized_pnl position.days_held)
    else
      match profitLoop position.entry_price high_price 0
          position.profit_levels position.profit_scales position [] with
      | (position, actions, some exit_price) =>
        let mgr :=
          { mgr with active_positions :=
              writePos mgr.active_positions symbol position }
        let mgr := close_position mgr symbol exit_price
        .ok (mgr, .closed actions position.realized_pnl position.days_held)
      | (position, actions, none) =>
        let vix_level := market_data.vix.getD position.vix_at_entry
        let (position, mgr, actions) :=
          if |vix_level - position.vix_at_entry| > 15 then
            let updated_market_state : MarketState :=
              { vix_level := vix_level, t2108_level := market_data.t2108,
                momentum := market_data.momentum, day := position.days_held }
            let (transition_detected, _new_regime, adjustments) :=
              DynamicRegimeManager.detect_regime_transition
                updated_market_state mgr.current_market_state
            if transition_detected ∧ adjustments.reason ≠ "" then
              let original_stop := position.stop_level
              let stop_distance := |position.stop_level - position.entry_price|
              let new_stop_distance :=
                stop_distance * adjustments.stop_multiplier
              let position :=
                { position with
                  stop_level := position.entry_price - new_stop_distance }
              (position,
               { mgr with current_market_state := some updated_market_state },
               actions ++
                 [Action.regimeAdjustment original_stop position.stop_level])
            else (position, mgr, actions)
          else (position, mgr, actions)
        if position.days_held ≥ 5 ∧ position.remaining_position > 0 then
          let time_exit_pnl :=
            current_pnl_pct * (position.remaining_position / 100)
          let actions := actions ++
            [Action.timeBasedExit close_price time_exit_pnl]
          let position :=
            { position with
              realized_pnl := position.realized_pnl + time_exit_pnl,
              remaining_position := 0 }
          let mgr :=
            { mgr with active_positions :=
                writePos mgr.active_positions symbol position }
          let mgr := close_position mgr symbol close_price
          .ok (mgr, .closed actions position.realized_pnl position.days_held)
        else
          let mgr :=
            { mgr with active_positions :=
                writePos mgr.active_positions symbol position }
          .ok (mgr, .active actions current_pnl_pct position.realized_pnl
            position.remaining_position position.days_held)

end UltimateRiskManager

namespace UltimateRiskManager

/-- Looking a symbol up right after writing it yields the written
position. -/
theorem lookupPos_writePos_self (l : List (String × TradePosition))
    (s : String) (v : TradePosition) :
    lookupPos (writePos l s v) s = some v := by
  induction l with
  | nil => simp [writePos, lookupPos]
  | cons kv rest ih =>
    obtain ⟨k, w⟩ := kv
    by_cases h : k = s
    · simp [writePos, h, lookupPos]
    · simp [writePos, h, lookupPos, ih]

/-- Looking a symbol up right after deleting it yields nothing. -/
theorem lookupPos_removePos_self (l : List (String × TradePosition))
    (s : String) : lookupPos (removePos l s) s = none := by
  induction l with
  | nil => simp [removePos, lookupPos]
  | cons kv rest ih =>
    obtain ⟨k, w⟩ := kv
    by_cases h : k = s
    · simp [removePos, h, ih]
    · simp [removePos, h, lookupPos, ih]

end UltimateRiskManager

/-! ## Claim theorems -/

open UltimateRiskManager in
/-- C6: updating a symbol that is not in the active set — which
includes every symbol whose position was previously closed and
removed — is rejected with PositionNotFound; no successor state is
produced, so no closed trade's PnL can be realized a second time. -/
theorem claim6_update_not_found (mgr : ManagerState) (symbol : String)
    (current_price_data : PriceData) (market_data : MarketData)
    (h : lookupPos mgr.active_positions symbol = none) :
    update_position mgr symbol current_price_data market_data =
      .error .PositionNotFound := by
  simp [update_position, h]

open UltimateRiskManager in
/-- Witness for C6 at a concrete manager state with an empty active
set. -/
theorem claim6_witness :
    lookupPos (({} : ManagerState).active_positions) "ZIM" = none ∧
    update_position {} "ZIM" {} {} = .error .PositionNotFound :=
  ⟨rfl, claim6_update_not_found {} "ZIM" {} {} rfl⟩

/-- C9 counterexample: with an absent previous snapshot,
detect_regime_transition reports transition_detected = true, not the
"no transition" the claim states. -/
theorem claim9_counterexample :
    (DynamicRegimeManager.detect_regime_transition { vix_level := 20 }
      none).1 = true := rfl

/-- C9 (amended): with an absent previous snapshot,
detect_regime_transition returns the default RuleAdjustment
(multipliers 1, urgency 1, empty reason) together with the freshly
classified regime, but flags transition_detected = true rather than
reporting no transition. -/
theorem claim9_no_previous_default (current : MarketState) :
    DynamicRegimeManager.detect_regime_transition current none =
      (true, DynamicRegimeManager.classify_regime_comprehensive current,
        { stop_multiplier := 1, profit_multiplier := 1,
          urgency_factor := 1, reason := "" }) := rfl

/-- C2 counterexample: with a breadth collapse of -40 (so both the
base rule "t2108 change < -25" and the breadth-collapse emergency
protocol fire), the returned stop multiplier is 0.7 * 0.6 = 0.42,
not the emergency protocol's fixed 0.6: the emergency adjustment is
multiplied into the base adjustment, it does not replace it. -/
theorem claim2_counterexample :
    (DynamicRegimeManager.detect_regime_transition
        { vix_level := 20, t2108_level := some 10, momentum := some 1 }
        (some { vix_level := 20, t2108_level := some 50, momentum := some 1 })
      ).2.2.stop_multiplier = 0.42 ∧
    (DynamicRegimeManager.detect_regime_transition
        { vix_level := 20, t2108_level := some 10, momentum := some 1 }
        (some { vix_level := 20, t2108_level := some 50, momentum := some 1 })
      ).2.2.stop_multiplier ≠ 0.6 := by
  norm_num [DynamicRegimeManager.detect_regime_transition,
    DynamicRegimeManager.classify_regime_comprehensive,
    DynamicRegimeManager.calculate_transition_adjustments,
    DynamicRegimeManager.check_emergency_protocols,
    DynamicRegimeManager.combine_adjustments]

/-- C2 (amended): whenever an emergency protocol triggers, the
adjustment returned by detect_regime_transition is the emergency
protocol's values composed MULTIPLICATIVELY with the base adjustment
computed from the raw deltas — stop and profit multipliers
multiplied in, urgency combined by max — never a replacement of it.
The three parts after the composition law pin down which fixed
protocol record each of the three named emergency conditions
produces, in the source's checking order: breadth collapse
(t2108 drop below -30) gives 0.6 / 0.7 / 2.0; otherwise volatility
explosion (VIX above 60 rising by more than 20) gives
1.5 / 1.4 / 0.7; otherwise momentum collapse (momentum below 0.1
from above 1.0) gives 0.5 / 0.6 / 3.0. -/
theorem claim2_emergency_composes (current previous : MarketState) :
    (∀ e : RuleAdjustment,
      DynamicRegimeManager.check_emergency_protocols current previous =
        some e →
      (DynamicRegimeManager.detect_regime_transition current
          (some previous)).2.2.stop_multiplier =
        (DynamicRegimeManager.calculate_transition_adjustments current
          previous
          (DynamicRegimeManager.classify_regime_comprehensive current)
          previous.regime).stop_multiplier * e.stop_multiplier ∧
      (DynamicRegimeManager.detect_regime_transition current
          (some previous)).2.2.profit_multiplier =
        (DynamicRegimeManager.calculate_transition_adjustments current
          previous
          (DynamicRegimeManager.classify_regime_comprehensive current)
          previous.regime).profit_multiplier * e.profit_multiplier ∧
      (DynamicRegimeManager.detect_regime_transition current
          (some previous)).2.2.urgency_factor =
        max (DynamicRegimeManager.calculate_transition_adjustments current
          previous
          (DynamicRegimeManager.classify_regime_comprehensive current)
          previous.regime).urgency_factor e.urgency_factor) ∧
    (∀ ct pt : ℚ, current.t2108_level = some ct →
      previous.t2108_level = some pt → ct - pt < -30 →
      DynamicRegimeManager.check_emergency_protocols current previous =
        some { stop_multiplier := 0.6, profit_multiplier := 0.7,
               urgency_factor := 2.0,
               reason := "EMERGENCY: Breadth collapse protocol activated" }) ∧
    ((∀ ct pt : ℚ, current.t2108_level = some ct →
        previous.t2108_level = some pt → ¬ (ct - pt < -30)) →
      current.vix_level > 60 →
      current.vix_level - previous.vix_level > 20 →
      DynamicRegimeManager.check_emergency_protocols current previous =
        some { stop_multiplier := 1.5, profit_multiplier := 1.4,
               urgency_factor := 0.7,
               reason :=
                 "EMERGENCY: Volatility explosion protocol activated" }) ∧
    ((∀ ct pt : ℚ, current.t2108_level = some ct →
        previous.t2108_level = some pt → ¬ (ct - pt < -30)) →
      ¬ (current.vix_level > 60 ∧
          current.vix_level - previous.vix_level > 20) →
      ∀ cm pm : ℚ, current.momentum = some cm →
        previous.momentum = some pm → cm < 0.1 → pm > 1.0 →
      DynamicRegimeManager.check_emergency_protocols current previous =
        some { stop_multiplier := 0.5, profit_multiplier := 0.6,
               urgency_factor := 3.0,
               reason :=
                 "EMERGENCY: Momentum collapse protocol activated" }) := by
  refine ⟨?_, ?_, ?_, ?_⟩
  · intro e he
    simp [DynamicRegimeManager.detect_regime_transition, he,
      DynamicRegimeManager.combine_adjustments]
  · intro ct pt hc hp h
    simp [DynamicRegimeManager.check_emergency_protocols, hc, hp, h]
  · intro hnb hv hdv
    rcases hc2 : current.t2108_level with _ | ct
    · simp [DynamicRegimeManager.check_emergency_protocols, hc2, hv, hdv]
    · rcases hp2 : previous.t2108_level with _ | pt
      · simp [DynamicRegimeManager.check_emergency_protocols, hc2, hp2,
          hv, hdv]
      · have hn := hnb ct pt hc2 hp2
        simp [DynamicRegimeManager.check_emergency_protocols, hc2, hp2,
          hn, hv, hdv]
  · intro hnb hnv cm pm hcm hpm h1 h2
    rcases hc2 : current.t2108_level with _ | ct
    · simp [DynamicRegimeManager.check_emergency_protocols, hc2, hnv,
        hcm, hpm, h1, h2]
    · rcases hp2 : previous.t2108_level with _ | pt
      · simp [DynamicRegimeManager.check_emergency_protocols, hc2, hp2,
          hnv, hcm, hpm, h1, h2]
      · have hn := hnb ct pt hc2 hp2
        simp [DynamicRegimeManager.check_emergency_protocols, hc2, hp2,
          hn, hnv, hcm, hpm, h1, h2]

/-- The current snapshot of the C2 volatility-explosion witness
scenario (VIX 70, no breadth or momentum data). -/
def claim2volcur : MarketState := { vix_level := 70 }

/-- The previous snapshot of the C2 volatility-explosion witness
scenario (VIX 40). -/
def claim2volprev : MarketState := { vix_level := 40 }

/-- Witness for C2 (amended) at a concrete volatility-explosion pair
(VIX jumps 40 to 70): the emergency check returns the volatility
protocol record and the returned multipliers are the base
adjustment's multiplied by 1.5 and 1.4 with urgency max-ed with
0.7. -/
theorem claim2_witness :
    DynamicRegimeManager.check_emergency_protocols claim2volcur
      claim2volprev =
      some { stop_multiplier := 1.5, profit_multiplier := 1.4,
             urgency_factor := 0.7,
             reason :=
               "EMERGENCY: Volatility explosion protocol activated" } ∧
    ((DynamicRegimeManager.detect_regime_transition claim2volcur
        (some claim2volprev)).2.2.stop_multiplier =
      (DynamicRegimeManager.calculate_transition_adjustments claim2volcur
        claim2volprev
        (DynamicRegimeManager.classify_regime_comprehensive claim2volcur)
        claim2volprev.regime).stop_multiplier * 1.5 ∧
     (DynamicRegimeManager.detect_regime_transition claim2volcur
        (some claim2volprev)).2.2.profit_multiplier =
      (DynamicRegimeManager.calculate_transition_adjustments claim2volcur
        claim2volprev
        (DynamicRegimeManager.classify_regime_comprehensive claim2volcur)
        claim2volprev.regime).profit_multiplier * 1.4 ∧
     (DynamicRegimeManager.detect_regime_transition claim2volcur
        (some claim2volprev)).2.2.urgency_factor =
      max (DynamicRegimeManager.calculate_transition_adjustments
        claim2volcur claim2volprev
        (DynamicRegimeManager.classify_regime_comprehensive claim2volcur)
        claim2volprev.regime).urgency_factor 0.7) := by
  have w := claim2_emergency_composes claim2volcur claim2volprev
  have hc := w.2.2.1
    (fun ct pt hct _ => by simp [claim2volcur] at hct)
    (by norm_num [claim2volcur])
    (by norm_num [claim2volcur, claim2volprev])
  exact ⟨hc, w.1 _ hc⟩

/-- C3 counterexample: the overlay's calculate_dynamic_stop applies
the breadth (t2108) multiplier but no clamp, and with entry 100,
true range 20, the crisis configuration and t2108 = 10 it returns a
stop percentage of -40, outside [-25, -2]. -/
theorem claim3_counterexample :
    (IntegratedRiskOverlay.calculate_dynamic_stop 100
      IntegratedRiskOverlay.crisisConfig 20 (some 10)).pct = -40 ∧
    (IntegratedRiskOverlay.calculate_dynamic_stop 100
      IntegratedRiskOverlay.crisisConfig 20 (some 10)).pct < -25 := by
  norm_num [IntegratedRiskOverlay.calculate_dynamic_stop,
    IntegratedRiskOverlay.crisisConfig]

/-- C3 (amended): the clamped adaptive stop computation
(AdaptiveStopManager.calculate_adaptive_stop) always produces a stop
percentage in [-25, -2] for positive entry price and positive true
range, the clamp being applied last, after the TR/percentage choice
and after the regime-adjustment multipliers; the t2108 breadth
multiplier lives only in the overlay's unclamped
calculate_dynamic_stop, whose output can leave the range. -/
theorem claim3_adaptive_stop_bounds (rolling : List ℚ)
    (entry_price current_true_range : ℚ) (base_rules : RegimeConfig)
    (market_state : MarketState) (previous_state : Option MarketState)
    (he : 0 < entry_price) (ht : 0 < current_true_range) :
    -25 ≤ (AdaptiveStopManager.calculate_adaptive_stop rolling entry_price
        current_true_range base_rules market_state
        previous_state).1.stop_pct ∧
    (AdaptiveStopManager.calculate_adaptive_stop rolling entry_price
        current_true_range base_rules market_state
        previous_state).1.stop_pct ≤ -2 := by
  simp only [AdaptiveStopManager.calculate_adaptive_stop]
  constructor
  · exact le_min (le_max_right _ _) (by norm_num)
  · exact min_le_right _ _

/-- Witness for C3 (amended) at a concrete input. -/
theorem claim3_witness :
    (0 : ℚ) < 100 ∧ (0 : ℚ) < 3 ∧
    (-25 ≤ (AdaptiveStopManager.calculate_adaptive_stop [] 100 3
        IntegratedRiskOverlay.bullConfig { vix_level := 20 }
        none).1.stop_pct ∧
     (AdaptiveStopManager.calculate_adaptive_stop [] 100 3
        IntegratedRiskOverlay.bullConfig { vix_level := 20 }
        none).1.stop_pct ≤ -2) :=
  ⟨by norm_num, by norm_num,
   claim3_adaptive_stop_bounds [] 100 3 IntegratedRiskOverlay.bullConfig
     { vix_level := 20 } none (by norm_num) (by norm_num)⟩

/-- C4 (code bug): RegimeProfitTakingManager.calculate_profit_levels
subtracts the previous level's position_to_close rather than the
previous cumulative scaling, so for the bull_normal configuration
(positionScaling [25, 50, 100], entry 100, VIX 20, true range 1) the
three positionToClose values are [25, 25, 75], summing to 125 rather
than the claimed 100 (the overlay's calculate_dynamic_profits
returns the intended [25, 25, 50]). -/
theorem claim4_profit_ladder_bug :
    ((RegimeProfitTakingManager.calculate_profit_levels 100 20 1
        none).profit_targets.map (·.position_to_close)) = [25, 25, 75] ∧
    ((RegimeProfitTakingManager.calculate_profit_levels 100 20 1
        none).profit_targets.map (·.position_to_close)).sum = 125 ∧
    ((IntegratedRiskOverlay.calculate_dynamic_profits 100
        IntegratedRiskOverlay.bullConfig 1).map
        (·.position_to_close)) = [25, 25, 50] := by
  refine ⟨?_, ?_, ?_⟩ <;>
    norm_num [RegimeProfitTakingManager.calculate_profit_levels,
      RegimeProfitTakingManager.classify_regime,
      RegimeProfitTakingManager.regime_rules,
      RegimeProfitTakingManager.profitLevelsGo,
      IntegratedRiskOverlay.calculate_dynamic_profits,
      IntegratedRiskOverlay.dynamicProfitsGo,
      IntegratedRiskOverlay.bullConfig]

/-- C8: absent secondary factors, both regime classifiers implement
the half-open VIX bands [0,15) LOW_VOL_COMPLACENCY, [15,30)
BULL_NORMAL, [30,50) HIGH_VOL_STRESS, [50,inf) CRISIS_OPPORTUNITY,
so vix = 15 gives BULL_NORMAL, vix = 30 gives HIGH_VOL_STRESS and
vix = 50 gives CRISIS_OPPORTUNITY. -/
theorem claim8_regime_bands (v : ℚ) (h0 : 0 ≤ v) :
    DynamicRegimeManager.classify_regime_comprehensive { vix_level := v } =
      (if v < 15 then RegimeType.LOW_VOL_COMPLACENCY
       else if v < 30 then RegimeType.BULL_NORMAL
       else if v < 50 then RegimeType.HIGH_VOL_STRESS
       else RegimeType.CRISIS_OPPORTUNITY) ∧
    IntegratedRiskOverlay.classify_regime v =
      RegimeType.val
        (if v < 15 then RegimeType.LOW_VOL_COMPLACENCY
         else if v < 30 then RegimeType.BULL_NORMAL
         else if v < 50 then RegimeType.HIGH_VOL_STRESS
         else RegimeType.CRISIS_OPPORTUNITY) := by
  constructor
  · show (if v ≥ 50 then RegimeType.CRISIS_OPPORTUNITY
      else if v ≥ 30 then RegimeType.HIGH_VOL_STRESS
      else if v ≥ 15 then RegimeType.BULL_NORMAL
      else RegimeType.LOW_VOL_COMPLACENCY) = _
    split_ifs <;> first | rfl | (exfalso; linarith)
  · simp only [IntegratedRiskOverlay.classify_regime, RegimeType.val]
    split_ifs <;> first | rfl | (exfalso; linarith) | (exfalso; simp_all)

/-- Witness for C8 at the band boundary vix = 30. -/
theorem claim8_witness :
    (0 : ℚ) ≤ 30 ∧
    (DynamicRegimeManager.classify_regime_comprehensive
        { vix_level := (30 : ℚ) } =
      (if (30 : ℚ) < 15 then RegimeType.LOW_VOL_COMPLACENCY
       else if (30 : ℚ) < 30 then RegimeType.BULL_NORMAL
       else if (30 : ℚ) < 50 then RegimeType.HIGH_VOL_STRESS
       else RegimeType.CRISIS_OPPORTUNITY) ∧
     IntegratedRiskOverlay.classify_regime (30 : ℚ) =
      RegimeType.val
        (if (30 : ℚ) < 15 then RegimeType.LOW_VOL_COMPLACENCY
         else if (30 : ℚ) < 30 then RegimeType.BULL_NORMAL
         else if (30 : ℚ) < 50 then RegimeType.HIGH_VOL_STRESS
         else RegimeType.CRISIS_OPPORTUNITY)) :=
  ⟨by norm_num, claim8_regime_bands 30 (by norm_num)⟩

open UltimateRiskManager in
/-- C7 counterexample: open_position performs no entry-price
validation — with a fresh symbol and entry price -5 it succeeds and
creates a position whose entry_price is -5, instead of rejecting the
call with an InvalidInput error. -/
theorem claim7_counterexample :
    ((open_position {} "X" (-5)
        { vix := some 20, t2108 := some 50, momentum := some 1,
          true_range := some 1 } none).toOption.map
      (fun r => (lookupPos r.1.active_positions "X").map
        (·.entry_price))) = some (some (-5)) := by
  norm_num [open_position, lookupPos, writePos, lookupTR, writeTR,
    IntegratedRiskOverlay.classify_regime,
    IntegratedRiskOverlay.regime_configurations,
    IntegratedRiskOverlay.bullConfig,
    DynamicRegimeManager.detect_regime_transition,
    DynamicRegimeManager.classify_regime_comprehensive,
    DynamicRegimeManager.apply_dynamic_adjustments,
    AdaptiveStopManager.calculate_adaptive_stop,
    IntegratedRiskOverlay.calculate_dynamic_profits,
    IntegratedRiskOverlay.dynamicProfitsGo, Except.toOption]

open UltimateRiskManager in
/-- C7 (amended): open_position validates only symbol uniqueness,
never the entry price: for any fresh symbol and any negative entry
price the call succeeds and creates a position — a non-positive
entry price is not rejected with InvalidInput (and entry price 0
only aborts in the source as an untyped ZeroDivisionError raised
mid-computation, after the market state was already mutated). -/
theorem claim7_open_no_price_validation (mgr : ManagerState)
    (symbol : String) (market_data : MarketData)
    (position_size : Option ℚ) (entry_price : ℚ)
    (hneg : entry_price < 0)
    (h : lookupPos mgr.active_positions symbol = none) :
    ∃ mgr' res,
      open_position mgr symbol entry_price market_data position_size =
        .ok (mgr', res) ∧
      (lookupPos mgr'.active_positions symbol).isSome = true := by
  have h0 : entry_price ≠ 0 := ne_of_lt hneg
  rcases hres : open_position mgr symbol entry_price market_data
      position_size with err | pr
  · exfalso
    simp [open_position, h, h0] at hres
  · obtain ⟨mgr', res⟩ := pr
    refine ⟨mgr', res, rfl, ?_⟩
    simp only [open_position, h, h0, Option.isSome_none, Bool.false_eq_true,
      if_false, Except.ok.injEq, Prod.mk.injEq] at hres
    obtain ⟨hmgr, -⟩ := hres
    rw [← hmgr]
    simp [lookupPos_writePos_self]

open UltimateRiskManager in
/-- Witness for C7 (amended) at a concrete fresh manager and entry
price -7. -/
theorem claim7_witness :
    (-7 : ℚ) < 0 ∧
    lookupPos (({} : ManagerState).active_positions) "EDN" = none ∧
    (∃ mgr' res,
      open_position {} "EDN" (-7) {} none = .ok (mgr', res) ∧
      (lookupPos mgr'.active_positions "EDN").isSome = true) :=
  ⟨by norm_num, rfl,
   claim7_open_no_price_validation {} "EDN" {} none (-7) (by norm_num) rfl⟩

open UltimateRiskManager in
/-- C10 counterexample: an open call that omits the vix key is not
unconditionally accepted — with entry price 0 the call fails (the
source raises ZeroDivisionError dividing the true-range stop
distance by the entry price), so "open succeeds" does not hold for
every such call. -/
theorem claim10_counterexample :
    open_position {} "X" 0
        { vix := none, t2108 := some 45, momentum := some 1.2,
          true_range := none } none = .error .ZeroDivisionError := by
  norm_num [open_position, lookupPos]

open UltimateRiskManager in
/-- C10 (amended): for a fresh symbol and nonzero entry price, a
market-data dict without a vix key is not rejected: open_position
behaves exactly as if vix were 20 (which classifies bull_normal) and
a missing true_range exactly as if it were 2 percent of the entry
price, and the call succeeds; with entry price 0 the call instead
aborts with the untyped ZeroDivisionError of the stop computation,
whether or not vix is supplied.  (The defaulting equality itself
holds for every entry price, 0 included.) -/
theorem claim10_missing_vix_defaults (mgr : ManagerState)
    (symbol : String) (entry_price : ℚ) (t2108 momentum : Option ℚ)
    (position_size : Option ℚ)
    (hentry : entry_price ≠ 0)
    (h : lookupPos mgr.active_positions symbol = none) :
    open_position mgr symbol entry_price
        { vix := none, t2108 := t2108, momentum := momentum,
          true_range := none } position_size =
      open_position mgr symbol entry_price
        { vix := some 20, t2108 := t2108, momentum := momentum,
          true_range := some (entry_price * 0.02) } position_size ∧
    ∃ mgr' res,
      open_position mgr symbol entry_price
          { vix := none, t2108 := t2108, momentum := momentum,
            true_range := none } position_size = .ok (mgr', res) ∧
      res.regime = "bull_normal" := by
  constructor
  · rfl
  · rcases hres : open_position mgr symbol entry_price
        { vix := none, t2108 := t2108, momentum := momentum,
          true_range := none } position_size with err | pr
    · exfalso
      simp [open_position, h, hentry] at hres
    · obtain ⟨mgr', res⟩ := pr
      refine ⟨mgr', res, rfl, ?_⟩
      simp only [open_position, h, hentry, Option.isSome_none,
        Bool.false_eq_true, if_false, Except.ok.injEq,
        Prod.mk.injEq] at hres
      obtain ⟨-, hres⟩ := hres
      rw [← hres]
      norm_num [IntegratedRiskOverlay.classify_regime]

open UltimateRiskManager in
/-- Witness for C10 (amended) at a concrete fresh manager. -/
theorem claim10_witness :
    (50 : ℚ) ≠ 0 ∧
    lookupPos (({} : ManagerState).active_positions) "EDN" = none ∧
    (open_position {} "EDN" 50
        { vix := none, t2108 := some 45, momentum := some 1.2,
          true_range := none } none =
      open_position {} "EDN" 50
        { vix := some 20, t2108 := some 45, momentum := some 1.2,
          true_range := some ((50 : ℚ) * 0.02) } none ∧
     ∃ mgr' res,
      open_position {} "EDN" 50
          { vix := none, t2108 := some 45, momentum := some 1.2,
            true_range := none } none = .ok (mgr', res) ∧
      res.regime = "bull_normal") :=
  ⟨by norm_num, rfl,
   claim10_missing_vix_defaults {} "EDN" 50 (some 45) (some 1.2)
     none (by norm_num) rfl⟩

open UltimateRiskManager in
/-- C5: on an ACTIVE position with no prior profit hits and full
remaining size, an update whose daily low reaches the stop level
closes the position in that same call — CLOSED status, final
realized PnL equal to (stopLevel - entryPrice)/entryPrice, and the
position removed from the active set with exactly that PnL appended
to the performance history — regardless of the daily high, close,
market data or days held (the stop check precedes profit-taking,
regime re-adjustment and time exit). -/
theorem claim5_stop_loss_closes (mgr : ManagerState) (symbol : String)
    (p : TradePosition) (hi lo cl : ℚ) (market_data : MarketData)
    (hp : lookupPos mgr.active_positions symbol = some p)
    (hhit : p.profit_levels_hit = [])
    (hrem : p.remaining_position = 100)
    (hst : p.stop_triggered = false)
    (hreal : p.realized_pnl = 0)
    (hlo : lo ≤ p.stop_level) :
    ∃ mgr' acts r,
      update_position mgr symbol
          { high := some hi, low := some lo, close := some cl }
          market_data = .ok (mgr', .closed acts r (p.days_held + 1)) ∧
      r = (p.stop_level - p.entry_price) / p.entry_price ∧
      lookupPos mgr'.active_positions symbol = none ∧
      mgr'.performance_history = mgr.performance_history ++
        [(p.stop_level - p.entry_price) / p.entry_price] := by
  norm_num [update_position, hp, hst, hrem, hlo]
  simp only [close_position, lookupPos_writePos_self]
  norm_num
  refine ⟨_, _, _, ⟨rfl, rfl, rfl⟩, ?_, ?_, ?_⟩
  · rw [hreal, zero_add]
  · exact lookupPos_removePos_self _ _
  · rw [hreal, zero_add]

open UltimateRiskManager in
/-- The concrete position of the C5 witness scenario. -/
def claim5pos : TradePosition :=
  { symbol := "EDN", entry_price := 100, regime_at_entry := "bull_normal",
    vix_at_entry := 20, stop_level := 92, profit_levels := [110, 120, 130],
    profit_scales := [25, 50, 100] }

open UltimateRiskManager in
/-- The concrete manager state of the C5 witness scenario. -/
def claim5mgr : ManagerState := { active_positions := [("EDN", claim5pos)] }

open UltimateRiskManager in
/-- Witness for C5 at the concrete stop-hit scenario. -/
theorem claim5_witness :
    lookupPos claim5mgr.active_positions "EDN" = some claim5pos ∧
    claim5pos.profit_levels_hit = [] ∧
    claim5pos.remaining_position = 100 ∧
    claim5pos.stop_triggered = false ∧
    claim5pos.realized_pnl = 0 ∧
    (91 : ℚ) ≤ claim5pos.stop_level ∧
    (∃ mgr' acts r,
      update_position claim5mgr "EDN"
          { high := some 95, low := some 91, close := some 93 } {} =
        .ok (mgr', .closed acts r (claim5pos.days_held + 1)) ∧
      r = (claim5pos.stop_level - claim5pos.entry_price) /
        claim5pos.entry_price ∧
      lookupPos mgr'.active_positions "EDN" = none ∧
      mgr'.performance_history = claim5mgr.performance_history ++
        [(claim5pos.stop_level - claim5pos.entry_price) /
          claim5pos.entry_price]) :=
  ⟨rfl, rfl, rfl, rfl, rfl, by norm_num [claim5pos],
   claim5_stop_loss_closes claim5mgr "EDN" claim5pos 95 91 93 {}
     rfl rfl rfl rfl rfl (by norm_num [claim5pos])⟩

open UltimateRiskManager in
/-- The PRIORITY 2 loop on a fresh three-level position (no hits,
full size, cumulative scales 0 < a < b < c = 100): every level whose
target is reached by the daily high executes; if not all three are
reached the loop does not close the position, the remaining position
stays strictly between 0 and 100, at least one level is recorded as
hit, and the stop level, entry VIX and day counter are untouched. -/
theorem profitLoop_three (entry hi t1 t2 t3 a b c : ℚ)
    (p : TradePosition)
    (hsc : p.profit_scales = [a, b, c])
    (hhit : p.profit_levels_hit = [])
    (hrem : p.remaining_position = 100)
    (ha : 0 < a) (hab : a < b) (hbc : b < c) (hc : c = 100)
    (htrig : t1 ≤ hi ∨ t2 ≤ hi ∨ t3 ≤ hi)
    (hnotall : ¬ (t1 ≤ hi ∧ t2 ≤ hi ∧ t3 ≤ hi)) :
    ∃ p' acts,
      profitLoop entry hi 0 [t1, t2, t3] [a, b, c] p [] =
        (p', acts, none) ∧
      p'.remaining_position < 100 ∧ 0 < p'.remaining_position ∧
      1 ≤ p'.profit_levels_hit.length ∧
      p'.stop_level = p.stop_level ∧ p'.vix_at_entry = p.vix_at_entry ∧
      p'.days_held = p.days_held := by
  subst hc
  have ka : (a:ℚ) < 100 := by linarith
  have ka' : ¬ ((100:ℚ) ≤ a) := by linarith
  have kb : (b:ℚ) < 100 := by linarith
  have kb' : ¬ ((100:ℚ) ≤ b) := by linarith
  have kba : ¬ (b ≤ a) := by linarith
  have kd : (b:ℚ) - a < 100 := by linarith
  have kd' : ¬ ((100:ℚ) ≤ b - a) := by linarith
  have kd2 : ¬ ((100:ℚ) + a ≤ b) := by linarith
  have kz : ¬ (a ≤ (0:ℚ)) := by linarith
  have kz' : ¬ (b ≤ (0:ℚ)) := by linarith
  by_cases h1 : t1 ≤ hi <;> by_cases h2 : t2 ≤ hi <;> by_cases h3 : t3 ≤ hi
  · exact absurd ⟨h1, h2, h3⟩ hnotall
  · norm_num [profitLoop, h1, h2, h3, hsc, hhit, hrem, ka, ka', kb, kb']
    first | (constructor <;> linarith) | linarith
  · norm_num [profitLoop, h1, h2, h3, hsc, hhit, hrem, ka, ka', kba]
    first | (constructor <;> linarith) | linarith
  · norm_num [profitLoop, h1, h2, h3, hsc, hhit, hrem, ka, ka']
    first | (constructor <;> linarith) | linarith
  · norm_num [profitLoop, h1, h2, h3, hsc, hhit, hrem, kd, kd', kd2, kz]
    first | (constructor <;> linarith) | linarith
  · norm_num [profitLoop, h1, h2, h3, hsc, hhit, hrem, kd, kd', kd2]
    first | (constructor <;> linarith) | linarith
  · norm_num [profitLoop, h1, h2, h3, hsc, hhit, hrem, kz']
    first | (constructor <;> linarith) | linarith
  · rcases htrig with h | h | h <;> exact absurd h (by assumption)

open UltimateRiskManager in
/-- C1 (amended): on a fresh ACTIVE position with three profit
levels and valid ascending cumulative scales, an update in which no
stop triggers and at least one — but not every — profit level is
reached executes EVERY reached level in the same call (not just the
first): the call stays ACTIVE, remainingPositionPct strictly
decreases and profitLevelsHit grows by AT LEAST one element,
possibly several. -/
theorem claim1_multi_levels_execute (mgr : ManagerState)
    (symbol : String) (p : TradePosition)
    (t1 t2 t3 a b c hi lo cl : ℚ) (md : MarketData)
    (hp : lookupPos mgr.active_positions symbol = some p)
    (hlev : p.profit_levels = [t1, t2, t3])
    (hsc : p.profit_scales = [a, b, c])
    (hhit : p.profit_levels_hit = [])
    (hrem : p.remaining_position = 100)
    (ha : 0 < a) (hab : a < b) (hbc : b < c) (hc : c = 100)
    (hlo : ¬ (lo ≤ p.stop_level))
    (hvix : md.vix = none)
    (hdays : p.days_held + 1 < 5)
    (htrig : t1 ≤ hi ∨ t2 ≤ hi ∨ t3 ≤ hi)
    (hnotall : ¬ (t1 ≤ hi ∧ t2 ≤ hi ∧ t3 ≤ hi)) :
    ∃ mgr' p' acts cur,
      update_position mgr symbol
          { high := some hi, low := some lo, close := some cl } md =
        .ok (mgr', .active acts cur p'.realized_pnl p'.remaining_position
          (p.days_held + 1)) ∧
      lookupPos mgr'.active_positions symbol = some p' ∧
      p'.remaining_position < p.remaining_position ∧
      p.profit_levels_hit.length < p'.profit_levels_hit.length := by
  obtain ⟨p', acts, hloop, hlt, hpos, hlen, hstop, hvixe, hdayse⟩ :=
    profitLoop_three p.entry_price hi t1 t2 t3 a b c
      { symbol := p.symbol, entry_price := p.entry_price,
        position_size := p.position_size,
        regime_at_entry := p.regime_at_entry, vix_at_entry := p.vix_at_entry,
        stop_level := p.stop_level, profit_levels := [t1, t2, t3],
        profit_scales := [a, b, c], stop_triggered := p.stop_triggered,
        profit_levels_hit := p.profit_levels_hit,
        remaining_position := p.remaining_position,
        realized_pnl := p.realized_pnl,
        max_profit_seen :=
          p.max_profit_seen ⊔ (hi - p.entry_price) / p.entry_price,
        max_loss_seen :=
          p.max_loss_seen ⊓ (lo - p.entry_price) / p.entry_price,
        days_held := p.days_held + 1 }
      rfl hhit hrem ha hab hbc hc htrig hnotall
  have hday' : p'.days_held = p.days_held + 1 := hdayse
  have hnd : ¬ (p'.days_held ≥ 5) := by omega
  have hnd' : ¬ (p.days_held + 1 ≥ 5) := by omega
  simp only [update_position, hp, hlev, hsc, hlo, hvix, Option.getD_some,
    false_and, if_false, hloop, Option.getD_none, sub_self, abs_zero,
    hnd, hnd', hday', show ¬ ((0:ℚ) > 15) from by norm_num]
  refine ⟨_, p', acts, _, rfl, lookupPos_writePos_self _ _ _, ?_, ?_⟩
  · rw [hrem]; exact hlt
  · rw [hhit]; simp only [List.length_nil]; omega

open UltimateRiskManager in
/-- The concrete fresh position of the C1 scenario: entry 100, stop
92, profit targets 110 / 120 / 130 with cumulative scales
25 / 50 / 100. -/
def claim1pos : TradePosition :=
  { symbol := "X", entry_price := 100, regime_at_entry := "bull_normal",
    vix_at_entry := 20, stop_level := 92, profit_levels := [110, 120, 130],
    profit_scales := [25, 50, 100] }

open UltimateRiskManager in
/-- The concrete manager state of the C1 scenario. -/
def claim1mgr : ManagerState := { active_positions := [("X", claim1pos)] }

open UltimateRiskManager in
/-- C1 counterexample: a daily high of 125 reaches the two not-yet-hit
levels 110 and 120, and ONE update call executes both — afterwards
profitLevelsHit is [0, 1] (it grew by two elements, not exactly one)
and the remaining position is 50, while the call stays ACTIVE. -/
theorem claim1_counterexample :
    ((update_position claim1mgr "X"
        { high := some 125, low := some 100, close := some 120 }
        {}).toOption.map
      (fun r => (lookupPos r.1.active_positions "X").map
        (fun q => (q.profit_levels_hit, q.remaining_position)))) =
      some (some ([0, 1], 50)) := by
  norm_num [update_position, claim1mgr, claim1pos, lookupPos, writePos,
    profitLoop, close_position, Except.toOption]

open UltimateRiskManager in
/-- Witness for C1 (amended) at the concrete two-level scenario. -/
theorem claim1_witness :
    ((110 : ℚ) ≤ 125 ∨ (120 : ℚ) ≤ 125 ∨ (130 : ℚ) ≤ 125) ∧
    ¬ ((110 : ℚ) ≤ 125 ∧ (120 : ℚ) ≤ 125 ∧ (130 : ℚ) ≤ 125) ∧
    (∃ mgr' p' acts cur,
      update_position claim1mgr "X"
          { high := some 125, low := some 100, close := some 120 } {} =
        .ok (mgr', .active acts cur p'.realized_pnl p'.remaining_position
          (claim1pos.days_held + 1)) ∧
      lookupPos mgr'.active_positions "X" = some p' ∧
      p'.remaining_position < claim1pos.remaining_position ∧
      claim1pos.profit_levels_hit.length < p'.profit_levels_hit.length) :=
  ⟨by norm_num, by norm_num,
   claim1_multi_levels_execute claim1mgr "X" claim1pos 110 120 130 25 50 100
     125 100 120 {} rfl rfl rfl rfl rfl (by norm_num) (by norm_num)
     (by norm_num) (by norm_num) (by norm_num [claim1pos]) rfl
     (by norm_num [claim1pos]) (by norm_num) (by norm_num)⟩

end Bidback
